import Mathlib

/-!
Verification of `nanobot.agent.tools.file_send.SendFileTool` (file_send.py).

The tool is a validator/dispatcher: it resolves routing context, validates a
batch of file paths against the filesystem, builds an `OutboundMessage` and
hands it to an injected delivery callback, returning a single result string.

Filesystem operations (`Path(...).expanduser().resolve()`, `.exists()`,
`.is_file()`) are abstracted as an `FS` record of pure functions; resolution
may fail (Python raises, caught by the surrounding `try`), so it returns
`Except`.  The asynchronous delivery callback is modelled as a pure function
`OutboundMessage → Except String Unit`: `.ok` for a normal return, `.error e`
for a raised fault whose textual description is `e`.  `execute` returns the
result string together with the list of messages the callback was invoked
with (empty or a singleton), so invocation counts are observable.
-/

/-- Modelled from the spec: `OutboundMessage` lives in `nanobot.bus.events`,
which is not part of the sources at hand; the spec fixes its four fields
`{channel, chatId, content, files}` and `file_send.py` constructs it with
exactly these keyword arguments. -/
structure OutboundMessage where
  channel : String
  chat_id : String
  content : String
  files : List String
deriving DecidableEq, Repr

/-- Abstraction of the filesystem operations used by `execute`. -/
structure FS where
  /-- `Path(s).expanduser().resolve()`; `.error e` models a raised exception
  with text `e`. -/
  resolvePath : String → Except String String
  /-- `self._allowed_dir.resolve()` (no `expanduser`); also inside the `try`. -/
  resolveDir : String → Except String String
  /-- `file_path.exists()` on the resolved path. -/
  pathExists : String → Bool
  /-- `file_path.is_file()` on the resolved path. -/
  isFile : String → Bool

/-- The delivery callback: `.ok ()` when the awaited call returns,
`.error e` when it raises a fault described by `e`. -/
def SendCallback := OutboundMessage → Except String Unit

/-- The state of a `SendFileTool` instance (constructor fields). -/
structure SendFileTool where
  send_callback : Option SendCallback
  default_channel : String := ""
  default_chat_id : String := ""
  allowed_dir : Option String := none

/-- `set_context`: overwrites both default routing fields unconditionally. -/
def SendFileTool.set_context (t : SendFileTool) (channel chat_id : String) :
    SendFileTool :=
  { t with default_channel := channel, default_chat_id := chat_id }

/-- `set_send_callback`: installs the delivery callback. -/
def SendFileTool.set_send_callback (t : SendFileTool) (cb : SendCallback) :
    SendFileTool :=
  { t with send_callback := some cb }

/-- Python `channel or self._default_channel`: an argument that is `None` or
the empty string falls back to the stored default. -/
def orDefault (v : Option String) (d : String) : String :=
  match v with
  | none => d
  | some s => if s = "" then d else s

/-- Python `s.startswith(p)`: `p`'s characters are an initial segment of
`s`'s characters. -/
def strStartsWith (s p : String) : Bool := p.data.isPrefixOf s.data

/-- The body of the `for file_path_str in file_paths:` loop for one path:
resolve, containment check (when an allowed directory is configured),
existence check, regular-file check.  Returns the canonical path string on
success and the loop's early-`return` error string on failure. -/
def validateOne (allowed_dir : Option String) (fs : FS)
    (file_path_str : String) : Except String String :=
  match fs.resolvePath file_path_str with
  | .error e =>
      .error ("Error validating file path " ++ file_path_str ++ ": " ++ e)
  | .ok file_path =>
      let contained : Except String Unit :=
        match allowed_dir with
        | none => .ok ()
        | some d =>
            match fs.resolveDir d with
            | .error e =>
                .error ("Error validating file path " ++ file_path_str
                  ++ ": " ++ e)
            | .ok allowed =>
                if strStartsWith file_path allowed then .ok ()
                else
                  .error ("Error: File " ++ file_path_str
                    ++ " is outside allowed directory " ++ d)
      match contained with
      | .error e => .error e
      | .ok _ =>
          if !fs.pathExists file_path then
            .error ("Error: File not found: " ++ file_path_str)
          else if !fs.isFile file_path then
            .error ("Error: Not a file: " ++ file_path_str)
          else
            .ok file_path

/-- The whole validation loop: first failure aborts, successes accumulate in
input order (`validated_paths.append(...)`). -/
def validatePaths (allowed_dir : Option String) (fs : FS) :
    List String → Except String (List String)
  | [] => .ok []
  | p :: rest =>
      match validateOne allowed_dir fs p with
      | .error e => .error e
      | .ok canon =>
          match validatePaths allowed_dir fs rest with
          | .error e => .error e
          | .ok tail => .ok (canon :: tail)

/-- `SendFileTool.execute`.  Returns the result string paired with the list
of messages the delivery callback was invoked with (in order). -/
def SendFileTool.execute (t : SendFileTool) (fs : FS)
    (file_paths : List String) (caption : String := "")
    (channel : Option String := none) (chat_id : Option String := none) :
    String × List OutboundMessage :=
  let channel := orDefault channel t.default_channel
  let chat_id := orDefault chat_id t.default_chat_id
  if channel = "" || chat_id = "" then
    ("Error: No target channel/chat specified", [])
  else
    match t.send_callback with
    | none => ("Error: File sending not configured", [])
    | some cb =>
        if file_paths = [] then
          ("Error: No file paths provided", [])
        else
          match validatePaths t.allowed_dir fs file_paths with
          | .error e => (e, [])
          | .ok validated_paths =>
              let msg : OutboundMessage :=
                { channel := channel, chat_id := chat_id,
                  content := caption, files := validated_paths }
              match cb msg with
              | .ok _ =>
                  let file_count := validated_paths.length
                  let files_desc :=
                    if file_count > 1 then toString file_count ++ " file(s)"
                    else validated_paths.headD ""
                  ("Successfully sent " ++ files_desc ++ " to "
                    ++ channel ++ ":" ++ chat_id, [msg])
              | .error e => ("Error sending file(s): " ++ e, [msg])

/-- The containment condition holds for a canonical path: no allowed directory is
configured, or the allowed directory resolves and its string form prefixes
the canonical path's string form. -/
def containmentOk (allowed_dir : Option String) (fs : FS) (canon : String) :
    Prop :=
  match allowed_dir with
  | none => True
  | some d => ∃ a, fs.resolveDir d = .ok a ∧ strStartsWith canon a = true

/-- An input path passes every per-path check of the validation loop. -/
def pathOk (allowed_dir : Option String) (fs : FS) (p : String) : Prop :=
  ∃ c, fs.resolvePath p = .ok c ∧ containmentOk allowed_dir fs c ∧
    fs.pathExists c = true ∧ fs.isFile c = true

/-! ### Concrete fixtures used by witnesses and counterexamples -/

/-- A filesystem where resolution prepends `/abs/` and everything exists and
is a regular file. -/
def fsAll : FS where
  resolvePath := fun p => .ok ("/abs/" ++ p)
  resolveDir := fun d => .ok d
  pathExists := fun _ => true
  isFile := fun _ => true

/-- A filesystem where resolution is the identity and nothing exists. -/
def fsNone : FS where
  resolvePath := fun p => .ok p
  resolveDir := fun d => .ok d
  pathExists := fun _ => false
  isFile := fun _ => false

/-- The filesystem of the §9 edge case: `/home/bot/files/../secret.txt`
canonicalizes to `/home/bot/secret.txt`, outside `/home/bot/files`. -/
def fsSecret : FS where
  resolvePath := fun p =>
    .ok (if p = "/home/bot/files/../secret.txt" then "/home/bot/secret.txt"
         else p)
  resolveDir := fun d => .ok d
  pathExists := fun _ => true
  isFile := fun _ => true

/-- A filesystem where resolution is the identity and everything except
`ghost` is an existing regular file. -/
def fsSome : FS where
  resolvePath := fun p => .ok p
  resolveDir := fun d => .ok d
  pathExists := fun p => p != "ghost"
  isFile := fun _ => true

/-- A callback that always succeeds. -/
def cbOk : SendCallback := fun _ => .ok ()

/-- A tool with a succeeding callback and routing context `telegram:123`. -/
def toolTG : SendFileTool :=
  { send_callback := some cbOk, default_channel := "telegram",
    default_chat_id := "123" }

/-- A tool with a succeeding callback and empty routing context. -/
def toolNoCtx : SendFileTool := { send_callback := some cbOk }

/-- A tool with no callback and empty routing context. -/
def toolBare : SendFileTool := { send_callback := none }

/-- A tool with no callback but routing context `telegram:123`. -/
def toolBareTG : SendFileTool :=
  { send_callback := none, default_channel := "telegram",
    default_chat_id := "123" }

/-- The tool of the §9 edge case: allowed directory `/home/bot/files`. -/
def toolSecret : SendFileTool :=
  { send_callback := some cbOk, default_channel := "telegram",
    default_chat_id := "123", allowed_dir := some "/home/bot/files" }

/-! ### Helper lemmas -/

theorem strStartsWith_append_left (a b p : String)
    (h : strStartsWith a p = true) : strStartsWith (a ++ b) p = true := by
  simp only [strStartsWith, List.isPrefixOf_iff_prefix, String.data_append] at *
  exact h.trans (List.prefix_append a.data b.data)

theorem sw_resolutionErr (p e : String) :
    strStartsWith ("Error validating file path " ++ p ++ ": " ++ e) "Error"
      = true :=
  strStartsWith_append_left _ _ _ (strStartsWith_append_left _ _ _
    (strStartsWith_append_left _ _ _ (by decide)))

theorem sw_containmentErr (p d : String) :
    strStartsWith ("Error: File " ++ p ++ " is outside allowed directory "
      ++ d) "Error" = true :=
  strStartsWith_append_left _ _ _ (strStartsWith_append_left _ _ _
    (strStartsWith_append_left _ _ _ (by decide)))

theorem sw_notFoundErr (p : String) :
    strStartsWith ("Error: File not found: " ++ p) "Error" = true :=
  strStartsWith_append_left _ _ _ (by decide)

theorem sw_notAFileErr (p : String) :
    strStartsWith ("Error: Not a file: " ++ p) "Error" = true :=
  strStartsWith_append_left _ _ _ (by decide)

theorem sw_sendErr (e : String) :
    strStartsWith ("Error sending file(s): " ++ e) "Error" = true :=
  strStartsWith_append_left _ _ _ (by decide)

theorem validateOne_ok_of (allowed_dir : Option String) (fs : FS) (p c : String)
    (hres : fs.resolvePath p = .ok c) (hcont : containmentOk allowed_dir fs c)
    (hex : fs.pathExists c = true) (hfile : fs.isFile c = true) :
    validateOne allowed_dir fs p = .ok c := by
  unfold validateOne
  rw [hres]
  dsimp only
  cases allowed_dir with
  | none => simp [hex, hfile]
  | some d =>
      simp only [containmentOk] at hcont
      obtain ⟨a, ha, hsw⟩ := hcont
      dsimp only
      rw [ha]
      simp [hsw, hex, hfile]

theorem validateOne_ok_elim (allowed_dir : Option String) (fs : FS)
    (p c : String) (h : validateOne allowed_dir fs p = .ok c) :
    fs.resolvePath p = .ok c ∧ containmentOk allowed_dir fs c ∧
      fs.pathExists c = true ∧ fs.isFile c = true := by
  unfold validateOne at h
  cases hres : fs.resolvePath p with
  | error e => rw [hres] at h; simp at h
  | ok c0 =>
      rw [hres] at h
      dsimp only at h
      cases allowed_dir with
      | none =>
          by_cases he : fs.pathExists c0 <;> by_cases hf : fs.isFile c0 <;>
            simp only [he, hf, Bool.not_true, Bool.not_false, if_true, if_false,
              Bool.false_eq_true, Bool.true_eq_false, ite_true, ite_false,
              reduceCtorEq, Except.ok.injEq] at h
          subst h
          exact ⟨rfl, trivial, he, hf⟩
      | some d =>
          dsimp only at h
          cases hd : fs.resolveDir d with
          | error e => rw [hd] at h; simp at h
          | ok a =>
              rw [hd] at h
              dsimp only at h
              by_cases hsw : strStartsWith c0 a <;>
                by_cases he : fs.pathExists c0 <;>
                  by_cases hf : fs.isFile c0 <;>
                    simp only [hsw, he, hf, Bool.not_true, Bool.not_false,
                      if_true, if_false, Bool.false_eq_true, Bool.true_eq_false,
                      ite_true, ite_false, reduceCtorEq,
                      Except.ok.injEq] at h
              subst h
              exact ⟨rfl, ⟨a, hd, hsw⟩, he, hf⟩

theorem validateOne_error_startsWith (allowed_dir : Option String) (fs : FS)
    (p e : String) (h : validateOne allowed_dir fs p = .error e) :
    strStartsWith e "Error" = true := by
  unfold validateOne at h
  cases hres : fs.resolvePath p with
  | error e0 =>
      rw [hres] at h
      simp only [Except.error.injEq] at h
      subst h
      exact sw_resolutionErr p e0
  | ok c0 =>
      rw [hres] at h
      dsimp only at h
      cases allowed_dir with
      | none =>
          by_cases he : fs.pathExists c0 <;> by_cases hf : fs.isFile c0 <;>
            simp only [he, hf, Bool.not_true, Bool.not_false, if_true, if_false,
              Bool.false_eq_true, Bool.true_eq_false, ite_true, ite_false,
              reduceCtorEq, Except.error.injEq] at h <;>
            first
              | (subst h; exact sw_notFoundErr p)
              | (subst h; exact sw_notAFileErr p)
      | some d =>
          dsimp only at h
          cases hd : fs.resolveDir d with
          | error e0 =>
              rw [hd] at h
              dsimp only at h
              simp only [Except.error.injEq] at h
              subst h
              exact sw_resolutionErr p e0
          | ok a =>
              rw [hd] at h
              dsimp only at h
              by_cases hsw : strStartsWith c0 a <;>
                by_cases he : fs.pathExists c0 <;>
                  by_cases hf : fs.isFile c0 <;>
                    simp only [hsw, he, hf, Bool.not_true, Bool.not_false,
                      if_true, if_false, Bool.false_eq_true, Bool.true_eq_false,
                      ite_true, ite_false, reduceCtorEq,
                      Except.error.injEq] at h <;>
                    first
                      | (subst h; exact sw_notFoundErr p)
                      | (subst h; exact sw_notAFileErr p)
                      | (subst h; exact sw_containmentErr p d)

theorem validatePaths_map_of (allowed_dir : Option String) (fs : FS)
    (canon : String → String) :
    ∀ l : List String, (∀ q ∈ l, validateOne allowed_dir fs q = .ok (canon q)) →
      validatePaths allowed_dir fs l = .ok (l.map canon)
  | [], _ => rfl
  | p :: rest, h => by
      have hp := h p (List.mem_cons_self p rest)
      have hrest := validatePaths_map_of allowed_dir fs canon rest
        (fun q hq => h q (List.mem_cons_of_mem p hq))
      unfold validatePaths
      rw [hp, hrest]
      rfl

theorem validatePaths_ok_length (allowed_dir : Option String) (fs : FS) :
    ∀ (l : List String) (vs : List String),
      validatePaths allowed_dir fs l = .ok vs → vs.length = l.length
  | [], vs, h => by
      unfold validatePaths at h
      simp only [Except.ok.injEq] at h
      subst h
      rfl
  | p :: rest, vs, h => by
      unfold validatePaths at h
      cases h1 : validateOne allowed_dir fs p with
      | error e => rw [h1] at h; simp at h
      | ok c =>
          rw [h1] at h
          dsimp only at h
          cases h2 : validatePaths allowed_dir fs rest with
          | error e => rw [h2] at h; simp at h
          | ok tail =>
              rw [h2] at h
              dsimp only at h
              simp only [Except.ok.injEq] at h
              subst h
              have := validatePaths_ok_length allowed_dir fs rest tail h2
              simp [this]

theorem validatePaths_ok_mem (allowed_dir : Option String) (fs : FS) :
    ∀ (l : List String) (vs : List String),
      validatePaths allowed_dir fs l = .ok vs →
      (∀ q ∈ l, ∃ c, validateOne allowed_dir fs q = .ok c) ∧
        (∀ f ∈ vs, ∃ q ∈ l, validateOne allowed_dir fs q = .ok f)
  | [], vs, h => by
      unfold validatePaths at h
      simp only [Except.ok.injEq] at h
      subst h
      exact ⟨fun q hq => absurd hq (List.not_mem_nil q), fun f hf =>
        absurd hf (List.not_mem_nil f)⟩
  | p :: rest, vs, h => by
      unfold validatePaths at h
      cases h1 : validateOne allowed_dir fs p with
      | error e => rw [h1] at h; simp at h
      | ok c =>
          rw [h1] at h
          dsimp only at h
          cases h2 : validatePaths allowed_dir fs rest with
          | error e => rw [h2] at h; simp at h
          | ok tail =>
              rw [h2] at h
              dsimp only at h
              simp only [Except.ok.injEq] at h
              subst h
              obtain ⟨ih1, ih2⟩ := validatePaths_ok_mem allowed_dir fs rest tail h2
              constructor
              · intro q hq
                rcases List.mem_cons.mp hq with hq | hq
                · exact ⟨c, hq ▸ h1⟩
                · exact ih1 q hq
              · intro f hf
                rcases List.mem_cons.mp hf with hf | hf
                · exact ⟨p, List.mem_cons_self p rest, hf ▸ h1⟩
                · obtain ⟨q, hq, hv⟩ := ih2 f hf
                  exact ⟨q, List.mem_cons_of_mem p hq, hv⟩

theorem validatePaths_error_append (allowed_dir : Option String) (fs : FS)
    (canon : String → String) (p : String) (rest : List String) (e : String)
    (hp : validateOne allowed_dir fs p = .error e) :
    ∀ pre : List String,
      (∀ q ∈ pre, validateOne allowed_dir fs q = .ok (canon q)) →
      validatePaths allowed_dir fs (pre ++ p :: rest) = .error e
  | [], _ => by
      rw [List.nil_append]
      unfold validatePaths
      rw [hp]
  | q :: pre, h => by
      have hq := h q (List.mem_cons_self q pre)
      have hrest := validatePaths_error_append allowed_dir fs canon p rest e hp
        pre (fun r hr => h r (List.mem_cons_of_mem q hr))
      rw [List.cons_append]
      unfold validatePaths
      rw [hq, hrest]

theorem validatePaths_error_startsWith (allowed_dir : Option String) (fs : FS) :
    ∀ (l : List String) (e : String),
      validatePaths allowed_dir fs l = .error e →
      strStartsWith e "Error" = true
  | [], e, h => by
      unfold validatePaths at h
      simp at h
  | p :: rest, e, h => by
      unfold validatePaths at h
      cases h1 : validateOne allowed_dir fs p with
      | error e0 =>
          rw [h1] at h
          dsimp only at h
          simp only [Except.error.injEq] at h
          subst h
          exact validateOne_error_startsWith allowed_dir fs p e0 h1
      | ok c =>
          rw [h1] at h
          dsimp only at h
          cases h2 : validatePaths allowed_dir fs rest with
          | error e0 =>
              rw [h2] at h
              dsimp only at h
              simp only [Except.error.injEq] at h
              subst h
              exact validatePaths_error_startsWith allowed_dir fs rest e0 h2
          | ok tail => rw [h2] at h; simp at h


/-- Unfolding of `execute` once the three leading guards are known to pass. -/
theorem execute_eq_of (t : SendFileTool) (fs : FS) (cb : SendCallback)
    (file_paths : List String) (caption : String)
    (channel chat_id : Option String)
    (hch : orDefault channel t.default_channel ≠ "")
    (hcid : orDefault chat_id t.default_chat_id ≠ "")
    (hcb : t.send_callback = some cb) (hne : file_paths ≠ []) :
    t.execute fs file_paths caption channel chat_id =
      match validatePaths t.allowed_dir fs file_paths with
      | .error e => (e, [])
      | .ok vs =>
          let msg : OutboundMessage :=
            { channel := orDefault channel t.default_channel,
              chat_id := orDefault chat_id t.default_chat_id,
              content := caption, files := vs }
          match cb msg with
          | .ok _ =>
              ("Successfully sent " ++
                (if vs.length > 1 then toString vs.length ++ " file(s)"
                 else vs.headD "") ++ " to "
                ++ orDefault channel t.default_channel ++ ":"
                ++ orDefault chat_id t.default_chat_id, [msg])
          | .error e => ("Error sending file(s): " ++ e, [msg]) := by
  unfold SendFileTool.execute
  dsimp only
  rw [if_neg (by simp [hch, hcid]), hcb]
  dsimp only
  rw [if_neg hne]

/-- `execute` with an empty resolved channel or chat id: the missing-target
error, no dispatch. -/
theorem execute_missing_target (t : SendFileTool) (fs : FS)
    (file_paths : List String) (caption : String)
    (channel chat_id : Option String)
    (h : orDefault channel t.default_channel = "" ∨
      orDefault chat_id t.default_chat_id = "") :
    t.execute fs file_paths caption channel chat_id =
      ("Error: No target channel/chat specified", []) := by
  unfold SendFileTool.execute
  dsimp only
  rw [if_pos]
  rcases h with h | h <;> simp [h]

/-- `execute` with no callback but a resolved target: the not-configured
error, no dispatch. -/
theorem execute_no_callback (t : SendFileTool) (fs : FS)
    (file_paths : List String) (caption : String)
    (channel chat_id : Option String)
    (hch : orDefault channel t.default_channel ≠ "")
    (hcid : orDefault chat_id t.default_chat_id ≠ "")
    (hcb : t.send_callback = none) :
    t.execute fs file_paths caption channel chat_id =
      ("Error: File sending not configured", []) := by
  unfold SendFileTool.execute
  dsimp only
  rw [if_neg (by simp [hch, hcid]), hcb]

/-- `execute` with a resolved target and a callback but an empty path list:
the empty-input error, no dispatch. -/
theorem execute_empty_paths (t : SendFileTool) (fs : FS) (caption : String)
    (channel chat_id : Option String) (cb : SendCallback)
    (hch : orDefault channel t.default_channel ≠ "")
    (hcid : orDefault chat_id t.default_chat_id ≠ "")
    (hcb : t.send_callback = some cb) :
    t.execute fs [] caption channel chat_id =
      ("Error: No file paths provided", []) := by
  unfold SendFileTool.execute
  dsimp only
  rw [if_neg (by simp [hch, hcid]), hcb]
  simp

/-- Characterization of `execute` when it invoked the callback (the returned
invocation log is `[msg]`): recovers the branch conditions, identifies the
dispatched message, and gives the result string in both callback outcomes. -/
theorem execute_dispatch_spec (t : SendFileTool) (fs : FS)
    (file_paths : List String) (caption : String)
    (channel chat_id : Option String) (msg : OutboundMessage)
    (h : (t.execute fs file_paths caption channel chat_id).2 = [msg]) :
    ∃ cb vs, t.send_callback = some cb ∧
      validatePaths t.allowed_dir fs file_paths = .ok vs ∧
      msg = { channel := orDefault channel t.default_channel,
              chat_id := orDefault chat_id t.default_chat_id,
              content := caption, files := vs } ∧
      orDefault channel t.default_channel ≠ "" ∧
      orDefault chat_id t.default_chat_id ≠ "" ∧
      file_paths ≠ [] ∧
      (∀ u : Unit, cb msg = .ok u →
        (t.execute fs file_paths caption channel chat_id).1 =
          "Successfully sent " ++
            (if vs.length > 1 then toString vs.length ++ " file(s)"
             else vs.headD "") ++ " to " ++ msg.channel ++ ":" ++ msg.chat_id) ∧
      (∀ e, cb msg = .error e →
        (t.execute fs file_paths caption channel chat_id).1 =
          "Error sending file(s): " ++ e) := by
  by_cases hch : orDefault channel t.default_channel = ""
  · rw [execute_missing_target t fs file_paths caption channel chat_id
      (Or.inl hch)] at h
    simp at h
  · by_cases hcid : orDefault chat_id t.default_chat_id = ""
    · rw [execute_missing_target t fs file_paths caption channel chat_id
        (Or.inr hcid)] at h
      simp at h
    · cases hcb : t.send_callback with
      | none =>
          rw [execute_no_callback t fs file_paths caption channel chat_id
            hch hcid hcb] at h
          simp at h
      | some cb =>
          by_cases hne : file_paths = []
          · subst hne
            rw [execute_empty_paths t fs caption channel chat_id cb
              hch hcid hcb] at h
            simp at h
          · have hrw := execute_eq_of t fs cb file_paths caption channel
              chat_id hch hcid hcb hne
            rw [hrw] at h
            cases hv : validatePaths t.allowed_dir fs file_paths with
            | error e => rw [hv] at h; simp at h
            | ok vs =>
                rw [hv] at h
                dsimp only at h
                cases hcm : cb ⟨orDefault channel t.default_channel,
                    orDefault chat_id t.default_chat_id, caption, vs⟩ with
                | ok u =>
                    rw [hcm] at h
                    dsimp only at h
                    simp only [List.cons.injEq, and_true] at h
                    subst h
                    refine ⟨cb, vs, rfl, rfl, rfl, hch, hcid, hne, ?_, ?_⟩
                    · intro u2 _
                      rw [hrw, hv]
                      dsimp only
                      rw [hcm]
                    · intro e he
                      rw [he] at hcm
                      exact absurd hcm (by simp)
                | error e =>
                    rw [hcm] at h
                    dsimp only at h
                    simp only [List.cons.injEq, and_true] at h
                    subst h
                    refine ⟨cb, vs, rfl, rfl, rfl, hch, hcid, hne, ?_, ?_⟩
                    · intro u2 hu
                      rw [hu] at hcm
                      exact absurd hcm (by simp)
                    · intro e2 he
                      rw [he] at hcm
                      simp only [Except.error.injEq] at hcm
                      subst hcm
                      rw [hrw, hv]
                      dsimp only
                      rw [he]

/-- A path that resolves and passes containment but does not exist fails the
loop with the not-found error. -/
theorem validateOne_notFound (allowed_dir : Option String) (fs : FS)
    (p c : String) (hres : fs.resolvePath p = .ok c)
    (hcont : containmentOk allowed_dir fs c)
    (hnex : fs.pathExists c = false) :
    validateOne allowed_dir fs p =
      .error ("Error: File not found: " ++ p) := by
  unfold validateOne
  rw [hres]
  dsimp only
  cases allowed_dir with
  | none => simp [hnex]
  | some d =>
      simp only [containmentOk] at hcont
      obtain ⟨a, ha, hsw⟩ := hcont
      dsimp only
      rw [ha]
      simp [hsw, hnex]

/-- A path that resolves outside the resolved allowed directory fails the
loop with the containment error, whatever the existence checks would say. -/
theorem validateOne_containment (fs : FS) (d a p c : String)
    (hres : fs.resolvePath p = .ok c) (hda : fs.resolveDir d = .ok a)
    (hout : strStartsWith c a = false) :
    validateOne (some d) fs p =
      .error ("Error: File " ++ p ++ " is outside allowed directory " ++ d) := by
  unfold validateOne
  rw [hres]
  dsimp only
  rw [hda]
  simp [hout]

theorem containmentErr_ne_notFound (p d : String) :
    "Error: File " ++ p ++ " is outside allowed directory " ++ d ≠
      "Error: File not found: " ++ p := by
  intro h
  have hl := congrArg String.length h
  have e1 : ("Error: File " : String).length = 12 := rfl
  have e2 : (" is outside allowed directory " : String).length = 30 := rfl
  have e3 : ("Error: File not found: " : String).length = 23 := rfl
  simp only [String.length_append, e1, e2, e3] at hl
  omega

theorem containmentErr_ne_notAFile (p d : String) :
    "Error: File " ++ p ++ " is outside allowed directory " ++ d ≠
      "Error: Not a file: " ++ p := by
  intro h
  have hl := congrArg String.length h
  have e1 : ("Error: File " : String).length = 12 := rfl
  have e2 : (" is outside allowed directory " : String).length = 30 := rfl
  have e3 : ("Error: Not a file: " : String).length = 19 := rfl
  simp only [String.length_append, e1, e2, e3] at hl
  omega

theorem resolutionErr_ne_notFound (p e : String) :
    "Error validating file path " ++ p ++ ": " ++ e ≠
      "Error: File not found: " ++ p := by
  intro h
  have hl := congrArg String.length h
  have e1 : ("Error validating file path " : String).length = 27 := rfl
  have e2 : ((": ") : String).length = 2 := rfl
  have e3 : ("Error: File not found: " : String).length = 23 := rfl
  simp only [String.length_append, e1, e2, e3] at hl
  omega

theorem resolutionErr_ne_notAFile (p e : String) :
    "Error validating file path " ++ p ++ ": " ++ e ≠
      "Error: Not a file: " ++ p := by
  intro h
  have hl := congrArg String.length h
  have e1 : ("Error validating file path " : String).length = 27 := rfl
  have e2 : ((": ") : String).length = 2 := rfl
  have e3 : ("Error: Not a file: " : String).length = 19 := rfl
  simp only [String.length_append, e1, e2, e3] at hl
  omega

/-- The invocation log of `execute` is empty or a singleton. -/
theorem execute_log_cases (t : SendFileTool) (fs : FS)
    (file_paths : List String) (caption : String)
    (channel chat_id : Option String) :
    (t.execute fs file_paths caption channel chat_id).2 = [] ∨
      ∃ m, (t.execute fs file_paths caption channel chat_id).2 = [m] := by
  unfold SendFileTool.execute
  dsimp only
  split
  · left; rfl
  · split
    · left; rfl
    · split
      · left; rfl
      · split
        · left; rfl
        · split
          · right; exact ⟨_, rfl⟩
          · right; exact ⟨_, rfl⟩

/-! ### Claim theorems -/

/-- C1: for every non-empty `file_paths` list whose every path resolves to a
canonical path that passes containment (when configured), exists and is a
regular file, with a non-empty resolved channel and chat id, a callback set
and the callback returning normally, `execute` returns a success string and
the callback is invoked exactly once, with an `OutboundMessage` whose channel
and chat id are the resolved routing pair, whose content is exactly the
caption, and whose files are the canonicalized inputs in input order. -/
theorem C1_success_dispatch (t : SendFileTool) (fs : FS) (cb : SendCallback)
    (canon : String → String) (file_paths : List String) (caption : String)
    (channel chat_id : Option String)
    (hcb : t.send_callback = some cb)
    (hne : file_paths ≠ [])
    (hch : orDefault channel t.default_channel ≠ "")
    (hcid : orDefault chat_id t.default_chat_id ≠ "")
    (hres : ∀ p ∈ file_paths, fs.resolvePath p = .ok (canon p))
    (hcont : ∀ p ∈ file_paths, containmentOk t.allowed_dir fs (canon p))
    (hex : ∀ p ∈ file_paths, fs.pathExists (canon p) = true)
    (hfile : ∀ p ∈ file_paths, fs.isFile (canon p) = true)
    (hok : cb ⟨orDefault channel t.default_channel,
      orDefault chat_id t.default_chat_id, caption,
      file_paths.map canon⟩ = .ok ()) :
    (t.execute fs file_paths caption channel chat_id).2 =
      [⟨orDefault channel t.default_channel,
        orDefault chat_id t.default_chat_id, caption,
        file_paths.map canon⟩] ∧
    strStartsWith (t.execute fs file_paths caption channel chat_id).1
      "Successfully sent" = true := by
  have hall : ∀ q ∈ file_paths,
      validateOne t.allowed_dir fs q = .ok (canon q) :=
    fun q hq => validateOne_ok_of t.allowed_dir fs q (canon q)
      (hres q hq) (hcont q hq) (hex q hq) (hfile q hq)
  have hv := validatePaths_map_of t.allowed_dir fs canon file_paths hall
  rw [execute_eq_of t fs cb file_paths caption channel chat_id hch hcid hcb
    hne, hv]
  dsimp only
  rw [hok]
  refine ⟨rfl, ?_⟩
  exact strStartsWith_append_left _ _ _ (strStartsWith_append_left _ _ _
    (strStartsWith_append_left _ _ _ (strStartsWith_append_left _ _ _
      (strStartsWith_append_left _ _ _ (by decide)))))

/-- C1 witness: a concrete two-file send through `toolTG` over `fsAll`. -/
theorem C1_success_dispatch_witness :
    (toolTG.execute fsAll ["a.txt", "b.txt"] "hi" none none).2 =
      [⟨"telegram", "123", "hi", ["/abs/a.txt", "/abs/b.txt"]⟩] ∧
    strStartsWith (toolTG.execute fsAll ["a.txt", "b.txt"] "hi" none none).1
      "Successfully sent" = true :=
  C1_success_dispatch toolTG fsAll cbOk (fun p => "/abs/" ++ p)
    ["a.txt", "b.txt"] "hi" none none rfl (by decide) (by decide) (by decide)
    (fun p _ => rfl) (fun p _ => trivial) (fun p _ => rfl) (fun p _ => rfl)
    rfl

/-- C2 counterexample: `["ghost"]` contains a non-existent path, yet with an
empty routing context `execute` returns the missing-target error, not a
"not found" error naming the path, so the claim fails as stated. -/
theorem C2_counterexample :
    fsNone.pathExists "ghost" = false ∧
    toolNoCtx.execute fsNone ["ghost"] "" none none =
      ("Error: No target channel/chat specified", []) ∧
    (toolNoCtx.execute fsNone ["ghost"] "" none none).1 ≠
      "Error: File not found: ghost" := by
  refine ⟨rfl, rfl, ?_⟩
  decide

/-- C2 (amended): when the resolved channel and chat id are non-empty, a
callback is set, every path before the first non-existent one passes all the
checks, and that path itself resolves and passes containment but does not
exist, `execute` returns the "not found" error naming it and the callback is
never invoked. -/
theorem C2_not_found (t : SendFileTool) (fs : FS) (cb : SendCallback)
    (canon : String → String) (pre : List String) (p : String)
    (rest : List String) (caption : String) (channel chat_id : Option String)
    (hcb : t.send_callback = some cb)
    (hch : orDefault channel t.default_channel ≠ "")
    (hcid : orDefault chat_id t.default_chat_id ≠ "")
    (hpre : ∀ q ∈ pre, fs.resolvePath q = .ok (canon q) ∧
      containmentOk t.allowed_dir fs (canon q) ∧
      fs.pathExists (canon q) = true ∧ fs.isFile (canon q) = true)
    (hpres : fs.resolvePath p = .ok (canon p))
    (hpcont : containmentOk t.allowed_dir fs (canon p))
    (hpnex : fs.pathExists (canon p) = false) :
    t.execute fs (pre ++ p :: rest) caption channel chat_id =
      ("Error: File not found: " ++ p, []) := by
  have hone : validateOne t.allowed_dir fs p =
      .error ("Error: File not found: " ++ p) :=
    validateOne_notFound t.allowed_dir fs p (canon p) hpres hpcont hpnex
  have hv := validatePaths_error_append t.allowed_dir fs canon p rest _ hone
    pre (fun q hq => validateOne_ok_of t.allowed_dir fs q (canon q)
      (hpre q hq).1 (hpre q hq).2.1 (hpre q hq).2.2.1 (hpre q hq).2.2.2)
  rw [execute_eq_of t fs cb (pre ++ p :: rest) caption channel chat_id hch
    hcid hcb (by simp), hv]

/-- C2 witness: `["a", "ghost"]` over `fsSome` where only `ghost` is missing. -/
theorem C2_not_found_witness :
    toolTG.execute fsSome ["a", "ghost"] "" none none =
      ("Error: File not found: ghost", []) :=
  C2_not_found toolTG fsSome cbOk (fun q => q) ["a"] "ghost" [] "" none none
    rfl (by decide) (by decide)
    (fun q hq => ⟨rfl, trivial, by
      have : q = "a" := by simpa using hq
      subst this
      decide, rfl⟩)
    rfl trivial (by decide)

/-- C4: when both the request-supplied and the stored default channel and
chat id are empty, `execute` returns the missing-target error and dispatches
nothing, regardless of the file paths supplied. -/
theorem C4_missing_target (t : SendFileTool) (fs : FS)
    (file_paths : List String) (caption : String)
    (channel chat_id : Option String)
    (hc1 : channel = none ∨ channel = some "")
    (hc2 : t.default_channel = "")
    (hc3 : chat_id = none ∨ chat_id = some "")
    (hc4 : t.default_chat_id = "") :
    t.execute fs file_paths caption channel chat_id =
      ("Error: No target channel/chat specified", []) := by
  apply execute_missing_target
  left
  rcases hc1 with h | h <;> subst h <;> simp [orDefault, hc2]

/-- C4 witness: valid paths, empty context and omitted routing arguments. -/
theorem C4_missing_target_witness :
    toolNoCtx.execute fsAll ["a.txt"] "" none none =
      ("Error: No target channel/chat specified", []) :=
  C4_missing_target toolNoCtx fsAll ["a.txt"] "" none none (Or.inl rfl) rfl
    (Or.inl rfl) rfl

/-- C5 counterexample: a tool with no callback and empty routing context
returns the missing-target error, not the "not configured" error, so "every
invocation ... regardless of the stored context" fails as stated. -/
theorem C5_counterexample :
    toolBare.send_callback = none ∧
    toolBare.execute fsAll ["a.txt"] "" none none =
      ("Error: No target channel/chat specified", []) ∧
    (toolBare.execute fsAll ["a.txt"] "" none none).1 ≠
      "Error: File sending not configured" := by
  refine ⟨rfl, rfl, ?_⟩
  decide

/-- C5 (amended): whenever no delivery callback has been supplied, every
invocation of `execute` whose resolved channel and chat id are non-empty
fails with the "delivery not configured" error string, regardless of the
file paths and caption. -/
theorem C5_not_configured (t : SendFileTool) (fs : FS)
    (file_paths : List String) (caption : String)
    (channel chat_id : Option String)
    (hcb : t.send_callback = none)
    (hch : orDefault channel t.default_channel ≠ "")
    (hcid : orDefault chat_id t.default_chat_id ≠ "") :
    t.execute fs file_paths caption channel chat_id =
      ("Error: File sending not configured", []) :=
  execute_no_callback t fs file_paths caption channel chat_id hch hcid hcb

/-- C5 witness: no callback, routing context present. -/
theorem C5_not_configured_witness :
    toolBareTG.execute fsAll ["a.txt"] "" none none =
      ("Error: File sending not configured", []) :=
  C5_not_configured toolBareTG fsAll ["a.txt"] "" none none rfl (by decide)
    (by decide)

/-- C3: whenever `execute` dispatched a message, the input list was
non-empty, the message's files list is non-empty, every input path passed
resolution, containment (when configured), existence and regular-file
checks, and every dispatched file is the canonical form of some input path
that passed all checks; hence a batch with any failing path dispatches
nothing. -/
theorem C3_all_or_nothing (t : SendFileTool) (fs : FS)
    (file_paths : List String) (caption : String)
    (channel chat_id : Option String) (msg : OutboundMessage)
    (hmem : msg ∈ (t.execute fs file_paths caption channel chat_id).2) :
    file_paths ≠ [] ∧ msg.files ≠ [] ∧
    (∀ p ∈ file_paths, pathOk t.allowed_dir fs p) ∧
    (∀ f ∈ msg.files, containmentOk t.allowed_dir fs f ∧
      fs.pathExists f = true ∧ fs.isFile f = true ∧
      ∃ p ∈ file_paths, fs.resolvePath p = .ok f) := by
  rcases execute_log_cases t fs file_paths caption channel chat_id with
    h0 | ⟨m, hm⟩
  · rw [h0] at hmem; simp at hmem
  · rw [hm] at hmem
    simp only [List.mem_singleton] at hmem
    subst hmem
    obtain ⟨cb, vs, hcb, hv, hmsg, hch, hcid, hne, -, -⟩ :=
      execute_dispatch_spec t fs file_paths caption channel chat_id msg hm
    obtain ⟨h1, h2⟩ := validatePaths_ok_mem t.allowed_dir fs file_paths vs hv
    have hlen := validatePaths_ok_length t.allowed_dir fs file_paths vs hv
    have hfiles : msg.files = vs := by rw [hmsg]
    refine ⟨hne, ?_, ?_, ?_⟩
    · rw [hfiles]
      intro hvnil
      apply hne
      subst hvnil
      simpa using hlen.symm
    · intro p hp
      obtain ⟨c, hc⟩ := h1 p hp
      obtain ⟨hr, hco, hex, hf⟩ := validateOne_ok_elim t.allowed_dir fs p c hc
      exact ⟨c, hr, hco, hex, hf⟩
    · intro f hf
      rw [hfiles] at hf
      obtain ⟨q, hq, hvq⟩ := h2 f hf
      obtain ⟨hr, hco, hex, hfi⟩ := validateOne_ok_elim t.allowed_dir fs q f hvq
      exact ⟨hco, hex, hfi, q, hq, hr⟩

/-- C3 witness: a dispatched concrete message satisfies the invariant. -/
theorem C3_all_or_nothing_witness :
    ["a.txt"] ≠ ([] : List String) ∧
    (⟨"telegram", "123", "", ["/abs/a.txt"]⟩ : OutboundMessage).files ≠ [] ∧
    (∀ p ∈ ["a.txt"], pathOk toolTG.allowed_dir fsAll p) ∧
    (∀ f ∈ (⟨"telegram", "123", "", ["/abs/a.txt"]⟩ : OutboundMessage).files,
      containmentOk toolTG.allowed_dir fsAll f ∧
      fsAll.pathExists f = true ∧ fsAll.isFile f = true ∧
      ∃ p ∈ ["a.txt"], fsAll.resolvePath p = .ok f) :=
  C3_all_or_nothing toolTG fsAll ["a.txt"] "" none none
    ⟨"telegram", "123", "", ["/abs/a.txt"]⟩ (by decide)

/-- C6: for each of channel and chat id, `execute` uses the request value if
non-empty, else the stored default (the empty string when never set); after
`set_context "telegram" "123"`, a call omitting both routing arguments
dispatches with channel `telegram` and chat id `123`. -/
theorem C6_routing :
    (∀ d : String, orDefault none d = d) ∧
    (∀ d : String, orDefault (some "") d = d) ∧
    (∀ s d : String, s ≠ "" → orDefault (some s) d = s) ∧
    (∀ (t : SendFileTool) (fs : FS) (file_paths : List String)
      (caption : String) (msg : OutboundMessage),
      msg ∈ ((t.set_context "telegram" "123").execute fs file_paths caption
        none none).2 →
      msg.channel = "telegram" ∧ msg.chat_id = "123") := by
  refine ⟨fun d => rfl, fun d => rfl, fun s d hs => by simp [orDefault, hs],
    ?_⟩
  intro t fs file_paths caption msg hmem
  rcases execute_log_cases (t.set_context "telegram" "123") fs file_paths
    caption none none with h0 | ⟨m, hm⟩
  · rw [h0] at hmem; simp at hmem
  · rw [hm] at hmem
    simp only [List.mem_singleton] at hmem
    subst hmem
    obtain ⟨cb, vs, -, -, hmsg, -, -, -, -, -⟩ :=
      execute_dispatch_spec (t.set_context "telegram" "123") fs file_paths
        caption none none msg hm
    rw [hmsg]
    exact ⟨rfl, rfl⟩

/-- C6 witness: the resolver equations at concrete values and a concrete
dispatch after `set_context`. -/
theorem C6_routing_witness :
    orDefault (some "x") "d" = "x" ∧
    (⟨"telegram", "123", "", ["/abs/a.txt"]⟩ : OutboundMessage).channel
      = "telegram" ∧
    (⟨"telegram", "123", "", ["/abs/a.txt"]⟩ : OutboundMessage).chat_id
      = "123" :=
  ⟨C6_routing.2.2.1 "x" "d" (by decide),
   (C6_routing.2.2.2 toolNoCtx fsAll ["a.txt"] ""
      ⟨"telegram", "123", "", ["/abs/a.txt"]⟩ (by decide)).1,
   (C6_routing.2.2.2 toolNoCtx fsAll ["a.txt"] ""
      ⟨"telegram", "123", "", ["/abs/a.txt"]⟩ (by decide)).2⟩

/-- A path that resolves, passes containment and exists but is not a regular
file fails the loop with the "not a file" error. -/
theorem validateOne_notAFile (allowed_dir : Option String) (fs : FS)
    (p c : String) (hres : fs.resolvePath p = .ok c)
    (hcont : containmentOk allowed_dir fs c)
    (hex : fs.pathExists c = true) (hnf : fs.isFile c = false) :
    validateOne allowed_dir fs p =
      .error ("Error: Not a file: " ++ p) := by
  unfold validateOne
  rw [hres]
  dsimp only
  cases allowed_dir with
  | none => simp [hex, hnf]
  | some d =>
      simp only [containmentOk] at hcont
      obtain ⟨a, ha, hsw⟩ := hcont
      dsimp only
      rw [ha]
      simp [hsw, hex, hnf]

/-- C7: with an allowed directory configured, a resolved path passes
containment exactly when the resolved allowed directory's string form
prefixes its string form, and otherwise the loop fails with the containment
error naming the input path and the configured root; concretely,
`/home/bot/files/../secret.txt` under allowed root `/home/bot/files`
(canonicalizing to `/home/bot/secret.txt`) yields the containment error. -/
theorem C7_containment :
    (∀ (fs : FS) (d a p c : String),
      fs.resolveDir d = .ok a → fs.resolvePath p = .ok c →
      ((strStartsWith c a = false →
        validateOne (some d) fs p =
          .error ("Error: File " ++ p ++ " is outside allowed directory "
            ++ d)) ∧
       (strStartsWith c a = true →
        validateOne (some d) fs p ≠
          .error ("Error: File " ++ p ++ " is outside allowed directory "
            ++ d)))) ∧
    toolSecret.execute fsSecret ["/home/bot/files/../secret.txt"] "" none
        none =
      ("Error: File /home/bot/files/../secret.txt is outside allowed directory /home/bot/files",
        []) := by
  constructor
  · intro fs d a p c hda hres
    constructor
    · intro hout
      exact validateOne_containment fs d a p c hres hda hout
    · intro hsw hcontra
      by_cases he : fs.pathExists c
      · by_cases hf : fs.isFile c
        · have hok : validateOne (some d) fs p = .ok c :=
            validateOne_ok_of (some d) fs p c hres ⟨a, hda, hsw⟩ he hf
          rw [hok] at hcontra
          exact absurd hcontra (by simp)
        · have hnf : validateOne (some d) fs p =
              .error ("Error: Not a file: " ++ p) :=
            validateOne_notAFile (some d) fs p c hres ⟨a, hda, hsw⟩ he
              (by simpa using hf)
          rw [hnf] at hcontra
          simp only [Except.error.injEq] at hcontra
          exact containmentErr_ne_notAFile p d hcontra.symm
      · have hnx : validateOne (some d) fs p =
            .error ("Error: File not found: " ++ p) :=
          validateOne_notFound (some d) fs p c hres ⟨a, hda, hsw⟩
            (by simpa using he)
        rw [hnx] at hcontra
        simp only [Except.error.injEq] at hcontra
        exact containmentErr_ne_notFound p d hcontra.symm
  · decide

/-- C7 witness: a path whose canonical form is not prefixed by the resolved
allowed directory draws the containment error. -/
theorem C7_containment_witness :
    validateOne (some "/d") fsNone "p" =
      .error ("Error: File " ++ "p" ++ " is outside allowed directory "
        ++ "/d") :=
  (C7_containment.1 fsNone "/d" "/d" "p" "p" rfl rfl).1 (by decide)

/-- C8: every invocation of `execute` terminates in exactly one of three
string outcomes: a validation error (no dispatch, string starts with
"Error"), a success string after a normally-returning callback, or a
dispatch error string embedding the fault text of a raising callback; no
fault escapes, since the model's callback outcome is always folded into the
returned string. -/
theorem C8_trichotomy (t : SendFileTool) (fs : FS) (file_paths : List String)
    (caption : String) (channel chat_id : Option String) :
    ((t.execute fs file_paths caption channel chat_id).2 = [] ∧
      strStartsWith (t.execute fs file_paths caption channel chat_id).1
        "Error" = true) ∨
    (∃ cb msg, t.send_callback = some cb ∧
      (t.execute fs file_paths caption channel chat_id).2 = [msg] ∧
      ((cb msg = .ok () ∧
        strStartsWith (t.execute fs file_paths caption channel chat_id).1
          "Successfully sent" = true) ∨
       (∃ e, cb msg = .error e ∧
        (t.execute fs file_paths caption channel chat_id).1 =
          "Error sending file(s): " ++ e))) := by
  by_cases hch : orDefault channel t.default_channel = ""
  · left
    rw [execute_missing_target t fs file_paths caption channel chat_id
      (Or.inl hch)]
    exact ⟨rfl, by decide⟩
  · by_cases hcid : orDefault chat_id t.default_chat_id = ""
    · left
      rw [execute_missing_target t fs file_paths caption channel chat_id
        (Or.inr hcid)]
      exact ⟨rfl, by decide⟩
    · cases hcb : t.send_callback with
      | none =>
          left
          rw [execute_no_callback t fs file_paths caption channel chat_id
            hch hcid hcb]
          exact ⟨rfl, by decide⟩
      | some cb =>
          by_cases hne : file_paths = []
          · subst hne
            left
            rw [execute_empty_paths t fs caption channel chat_id cb hch hcid
              hcb]
            exact ⟨rfl, by decide⟩
          · have hrw := execute_eq_of t fs cb file_paths caption channel
              chat_id hch hcid hcb hne
            cases hv : validatePaths t.allowed_dir fs file_paths with
            | error e =>
                left
                rw [hrw, hv]
                exact ⟨rfl, validatePaths_error_startsWith t.allowed_dir fs
                  file_paths e hv⟩
            | ok vs =>
                cases hcm : cb ⟨orDefault channel t.default_channel,
                    orDefault chat_id t.default_chat_id, caption, vs⟩ with
                | ok u =>
                    right
                    refine ⟨cb, ⟨orDefault channel t.default_channel,
                      orDefault chat_id t.default_chat_id, caption, vs⟩,
                      rfl, ?_, Or.inl ⟨by cases u; exact hcm, ?_⟩⟩
                    · rw [hrw, hv]
                      dsimp only
                      rw [hcm]
                    · rw [hrw, hv]
                      dsimp only
                      rw [hcm]
                      exact strStartsWith_append_left _ _ _
                        (strStartsWith_append_left _ _ _
                          (strStartsWith_append_left _ _ _
                            (strStartsWith_append_left _ _ _
                              (strStartsWith_append_left _ _ _ (by decide)))))
                | error e =>
                    right
                    refine ⟨cb, ⟨orDefault channel t.default_channel,
                      orDefault chat_id t.default_chat_id, caption, vs⟩,
                      rfl, ?_, Or.inr ⟨e, hcm, ?_⟩⟩
                    · rw [hrw, hv]
                      dsimp only
                      rw [hcm]
                    · rw [hrw, hv]
                      dsimp only
                      rw [hcm]

/-- C9: when the callback was invoked and returned normally, the success
string mentions the single dispatched file by its canonical name when there
is exactly one, and otherwise the count with `file(s)`, in both cases
followed by `channel:chat id`. -/
theorem C9_result_format (t : SendFileTool) (fs : FS)
    (file_paths : List String) (caption : String)
    (channel chat_id : Option String) (cb : SendCallback)
    (msg : OutboundMessage)
    (hcb : t.send_callback = some cb)
    (hlog : (t.execute fs file_paths caption channel chat_id).2 = [msg])
    (hok : cb msg = .ok ()) :
    (∀ f, msg.files = [f] →
      (t.execute fs file_paths caption channel chat_id).1 =
        "Successfully sent " ++ f ++ " to " ++ msg.channel ++ ":"
          ++ msg.chat_id) ∧
    (msg.files.length > 1 →
      (t.execute fs file_paths caption channel chat_id).1 =
        "Successfully sent " ++ (toString msg.files.length ++ " file(s)")
          ++ " to " ++ msg.channel ++ ":" ++ msg.chat_id) := by
  obtain ⟨cb2, vs, hcb2, hv, hmsg, hch, hcid, hne, hsucc, herr⟩ :=
    execute_dispatch_spec t fs file_paths caption channel chat_id msg hlog
  have hcbeq : cb2 = cb := Option.some.inj (hcb2.symm.trans hcb)
  subst hcbeq
  have hfiles : msg.files = vs := by rw [hmsg]
  have hres := hsucc () hok
  constructor
  · intro f hf
    have hvs : vs = [f] := by rw [← hfiles, hf]
    subst hvs
    rw [hres]
    norm_num
  · intro hlen
    rw [hfiles] at hlen
    rw [hres, if_pos hlen, hfiles]

/-- C9 witness: a singular and a plural concrete send. -/
theorem C9_result_format_witness :
    (toolTG.execute fsAll ["a.txt"] "" none none).1 =
      "Successfully sent " ++ "/abs/a.txt" ++ " to " ++ "telegram" ++ ":"
        ++ "123" ∧
    (toolTG.execute fsAll ["a.txt", "b.txt"] "" none none).1 =
      "Successfully sent " ++ (toString (2 : Nat) ++ " file(s)") ++ " to "
        ++ "telegram" ++ ":" ++ "123" :=
  ⟨(C9_result_format toolTG fsAll ["a.txt"] "" none none cbOk
      ⟨"telegram", "123", "", ["/abs/a.txt"]⟩ rfl rfl rfl).1 "/abs/a.txt" rfl,
   (C9_result_format toolTG fsAll ["a.txt", "b.txt"] "" none none cbOk
      ⟨"telegram", "123", "", ["/abs/a.txt", "/abs/b.txt"]⟩ rfl rfl rfl).2
     (by decide)⟩

/-- C10: with an allowed directory configured, containment is checked
before existence: a path whose canonical form falls outside the allowed
directory draws the containment error for any filesystem, with no
hypothesis on whether the path exists; conversely, the "not found" and
"not a file" errors can only arise for a path whose canonical form passed
the containment prefix check. -/
theorem C10_containment_first :
    (∀ (t : SendFileTool) (fs : FS) (cb : SendCallback)
      (canon : String → String) (d a : String) (pre : List String)
      (p : String) (rest : List String) (caption : String)
      (channel chat_id : Option String),
      t.allowed_dir = some d →
      t.send_callback = some cb →
      orDefault channel t.default_channel ≠ "" →
      orDefault chat_id t.default_chat_id ≠ "" →
      (∀ q ∈ pre, fs.resolvePath q = .ok (canon q) ∧
        containmentOk t.allowed_dir fs (canon q) ∧
        fs.pathExists (canon q) = true ∧ fs.isFile (canon q) = true) →
      fs.resolvePath p = .ok (canon p) →
      fs.resolveDir d = .ok a →
      strStartsWith (canon p) a = false →
      t.execute fs (pre ++ p :: rest) caption channel chat_id =
        ("Error: File " ++ p ++ " is outside allowed directory " ++ d,
          [])) ∧
    (∀ (fs : FS) (d p e : String),
      validateOne (some d) fs p = .error e →
      (e = "Error: File not found: " ++ p ∨
        e = "Error: Not a file: " ++ p) →
      ∃ c a, fs.resolvePath p = .ok c ∧ fs.resolveDir d = .ok a ∧
        strStartsWith c a = true) := by
  constructor
  · intro t fs cb canon d a pre p rest caption channel chat_id had hcb hch
      hcid hpre hpres hda hout
    have hone : validateOne t.allowed_dir fs p =
        .error ("Error: File " ++ p ++ " is outside allowed directory "
          ++ d) := by
      rw [had]
      exact validateOne_containment fs d a p (canon p) hpres hda hout
    have hv := validatePaths_error_append t.allowed_dir fs canon p rest _
      hone pre (fun q hq => validateOne_ok_of t.allowed_dir fs q (canon q)
        (hpre q hq).1 (hpre q hq).2.1 (hpre q hq).2.2.1 (hpre q hq).2.2.2)
    rw [execute_eq_of t fs cb (pre ++ p :: rest) caption channel chat_id
      hch hcid hcb (by simp), hv]
  · intro fs d p e h hdisj
    unfold validateOne at h
    cases hres : fs.resolvePath p with
    | error e0 =>
        rw [hres] at h
        simp only [Except.error.injEq] at h
        rcases hdisj with h1 | h1 <;> rw [h1] at h
        · exact absurd h (resolutionErr_ne_notFound p e0)
        · exact absurd h (resolutionErr_ne_notAFile p e0)
    | ok c =>
        rw [hres] at h
        dsimp only at h
        cases hda : fs.resolveDir d with
        | error e0 =>
            rw [hda] at h
            dsimp only at h
            simp only [Except.error.injEq] at h
            rcases hdisj with h1 | h1 <;> rw [h1] at h
            · exact absurd h (resolutionErr_ne_notFound p e0)
            · exact absurd h (resolutionErr_ne_notAFile p e0)
        | ok a =>
            rw [hda] at h
            dsimp only at h
            by_cases hsw : strStartsWith c a
            · exact ⟨c, a, rfl, rfl, hsw⟩
            · simp only [hsw, Bool.false_eq_true, if_false, ite_false] at h
              simp only [Except.error.injEq] at h
              rcases hdisj with h1 | h1 <;> rw [h1] at h
              · exact absurd h (containmentErr_ne_notFound p d)
              · exact absurd h (containmentErr_ne_notAFile p d)

/-- C10 witness: the §9 edge-case path draws the containment error although
every path of the concrete filesystem exists and is a regular file. -/
theorem C10_containment_first_witness :
    fsSecret.pathExists "/home/bot/secret.txt" = true ∧
    toolSecret.execute fsSecret ["/home/bot/files/../secret.txt"] "x" none
        none =
      ("Error: File " ++ "/home/bot/files/../secret.txt"
        ++ " is outside allowed directory " ++ "/home/bot/files", []) :=
  ⟨rfl,
   C10_containment_first.1 toolSecret fsSecret cbOk
    (fun q => if q = "/home/bot/files/../secret.txt"
      then "/home/bot/secret.txt" else q)
    "/home/bot/files" "/home/bot/files" [] "/home/bot/files/../secret.txt"
    [] "x" none none rfl rfl (by decide) (by decide)
    (fun q hq => absurd hq (List.not_mem_nil q)) rfl rfl (by decide)⟩
